import Mathlib

/-!
Verification development for the FairScreen resume-screening repository.

The repository has two source files:
* `src/services/geminiService.ts` — the external-API wrapper `screenResumes`;
* an unnamed React UI component file (`App`) holding the resume-list state,
  the PDF text extraction, and the screening/error UI state transitions.

This file gives a shallow embedding of both, faithful to the TypeScript
source, and proves properties of the embedding.
-/

/-- A resume input as held in the UI state and passed to `screenResumes`:
`interface ResumeInput { id: string; text: string }` (App) and the parameter
type `{ id: string; text: string }[]` of `screenResumes`. -/
structure ResumeInput where
  id : String
  text : String
deriving DecidableEq, Repr

/-- A JSON value, used to model the parsed body of the model's response.
JSON numbers are modelled as integers; no claim inspects a numeric value. -/
inductive Json where
  | null : Json
  | bool : Bool → Json
  | num : Int → Json
  | str : String → Json
  | arr : List Json → Json
  | obj : List (String × Json) → Json

/-- Whether a JSON value is an object having a field named `k`
(JS: `k in v` for the object case, used to state claims about the
shape of the parsed response). -/
def Json.hasField : Json → String → Bool
  | .obj fields, k => fields.any (fun p => p.1 == k)
  | _, _ => false

/-- Field lookup on a JSON object; `none` models JS `undefined` (missing
field, or any access on a non-object). -/
def Json.getField : Json → String → Option Json
  | .obj fields, k => (fields.find? (fun p => p.1 == k)).map (·.2)
  | _, _ => none

/-! ## Substring occurrence

Helpers used to state that fixed phrases occur in the prompt strings.
`lstartsWith p l` checks that `p` is an initial segment of `l`;
`occursSeq p l` checks that `p` occurs as a contiguous segment of `l`. -/

def lstartsWith : List Char → List Char → Bool
  | [], _ => true
  | _ :: _, [] => false
  | p :: ps, c :: cs => p == c && lstartsWith ps cs

def occursSeq (p : List Char) : List Char → Bool
  | [] => lstartsWith p []
  | c :: cs => lstartsWith p (c :: cs) || occursSeq p cs

/-- `pat` occurs as a contiguous substring of `s`. -/
def strOccurs (pat s : String) : Bool := occursSeq pat.data s.data

theorem lstartsWith_append (p rest : List Char) :
    lstartsWith p (p ++ rest) = true := by
  induction p with
  | nil => rfl
  | cons c cs ih => simp [lstartsWith, ih]

theorem occursSeq_of_startsWith (p l : List Char)
    (h : lstartsWith p l = true) : occursSeq p l = true := by
  cases l with
  | nil => exact h
  | cons c cs => simp [occursSeq, h]

theorem occursSeq_of_append (p a b : List Char) :
    occursSeq p (a ++ p ++ b) = true := by
  induction a with
  | nil =>
    exact occursSeq_of_startsWith p (p ++ b) (lstartsWith_append p b)
  | cons c cs ih =>
    simp only [List.cons_append, occursSeq, List.append_eq]
    rw [ih]
    simp

/-- Soundness of occurrence for strings: a decomposition of the character
data yields `strOccurs`. -/
theorem strOccurs_of_data (pat s : String) (a b : List Char)
    (h : s.data = a ++ pat.data ++ b) : strOccurs pat s = true := by
  unfold strOccurs
  rw [h]
  exact occursSeq_of_append pat.data a b

/-! ## Embedding of `src/services/geminiService.ts` -/

/-- The fixed model name (`const model = "gemini-3.1-pro-preview"`). -/
def modelName : String := "gemini-3.1-pro-preview"

/-- The system instruction template literal (`const systemInstruction`,
geminiService.ts lines 28–51), transcribed byte for byte: it opens with a
newline, each content line is indented by four spaces, and it closes with
a newline and two spaces. -/
def systemInstruction : String :=
  "\n    You are an impartial resume-screening assistant for a Data Analyst position. Your task is to evaluate resumes strictly on job-related competencies and demonstrated skills.\n\n    Explicit Fairness Constraints (Mandatory):\n    You must not consider the following attributes in any form:\n    - Gender or gender-coded language\n    - Age or graduation year\n    - Ethnicity, caste, religion, or race\n    - Nationality or country of origin\n    - University name, college prestige, or ranking\n\n    If such attributes appear, you must ignore them completely and not reference them in reasoning or scoring.\n\n    Evaluation Criteria (Only These Are Allowed):\n    1. Technical Skills (40%): SQL, Python/R, Data cleaning & transformation, Statistical analysis, BI tools (Tableau, Power BI, etc.)\n    2. Practical Experience (30%): Data analysis projects (professional or academic), Business problem framing, Real datasets and outcomes\n    3. Analytical Thinking (20%): Problem-solving examples, Insight generation, Decision-support use cases\n    4. Communication Evidence (10%): Clarity of explanations, Stakeholder reporting, Documentation or dashboards\n\n    Scoring Rules:\n    - Score each resume on a 0–100 scale.\n    - Provide criterion-level sub-scores.\n    - Use evidence-based justification quoting resume content.\n  "

/-- One resume block of the prompt interpolation:
the JS arrow body is a template producing
a header line with the resume id followed by the resume text. -/
def resumeBlock (r : ResumeInput) : String :=
  "--- Resume ID: " ++ r.id ++ " ---\n" ++ r.text

/-- JS `Array.prototype.join`: empty list gives the empty string, a
singleton gives its element, and otherwise elements are interleaved with
the separator. -/
def joinSep (sep : String) : List String → String
  | [] => ""
  | [x] => x
  | x :: xs => x ++ sep ++ joinSep sep xs

/-- The user prompt (`const prompt`, geminiService.ts lines 53–60): a fixed
prefix, then `resumes.map(resumeBlock).join` with a blank-line separator,
then a fixed suffix, all transcribed byte for byte. -/
def prompt (resumes : List ResumeInput) : String :=
  "\n    Evaluate the following 20 resumes for a Data Analyst role.\n    \n    Resumes:\n    "
    ++ joinSep "\n\n" (resumes.map resumeBlock)
    ++ "\n\n    Return the results in the specified JSON format.\n  "

/-- Response schemas as passed in the request config (`Type.OBJECT` etc.).
The `description` strings on two fields are omitted as non-semantic. -/
inductive Schema where
  | str : Schema
  | num : Schema
  | arr (items : Schema) : Schema
  | obj (properties : List (String × Schema)) (required : List String) : Schema

/-- The `responseSchema` literal of the request config
(geminiService.ts lines 68–99). -/
def responseSchema : Schema :=
  .obj
    [("evaluations", .arr (.obj
        [("resumeId", .str),
         ("scores", .obj
            [("technicalSkills", .num),
             ("practicalExperience", .num),
             ("analyticalThinking", .num),
             ("communicationEvidence", .num)]
            ["technicalSkills", "practicalExperience", "analyticalThinking",
             "communicationEvidence"]),
         ("totalScore", .num),
         ("strengths", .arr .str),
         ("gaps", .arr .str),
         ("justification", .str)]
        ["resumeId", "scores", "totalScore", "strengths", "gaps",
         "justification"])),
     ("topCandidates", .arr .str),
     ("fairnessCheck", .str)]
    ["evaluations", "topCandidates", "fairnessCheck"]

/-- A part of a content item: `{ text: prompt }`. -/
structure ContentPart where
  text : String

/-- A content item: `{ parts: [...] }`. -/
structure Content where
  parts : List ContentPart

/-- The request config passed to `generateContent`. -/
structure GenConfig where
  systemInstruction : String
  responseMimeType : String
  responseSchema : Schema

/-- The full argument of `ai.models.generateContent`. -/
structure GenRequest where
  model : String
  contents : List Content
  config : GenConfig

/-- The response of `generateContent`, as used by the source: only its
`text` accessor is read.  `jsonText = none` models an absent or empty
`response.text` (falsy in JS); `jsonText = some j` models a text that is
the serialization of the JSON value `j` — the source's only use of the
text is `JSON.parse`, so the text is modelled by its parsed value. -/
structure GenerateContentResponse where
  jsonText : Option Json

/-- The request `screenResumes` builds for a given resume list
(geminiService.ts lines 62–101). -/
def buildRequest (resumes : List ResumeInput) : GenRequest :=
  { model := modelName
    contents := [⟨[⟨prompt resumes⟩]⟩]
    config :=
      { systemInstruction := systemInstruction
        responseMimeType := "application/json"
        responseSchema := responseSchema } }

/-- `JSON.parse(response.text || "\x7b\x7d")` (geminiService.ts line 103):
a falsy text falls back to parsing the two-character object literal, i.e.
the empty JSON object; otherwise the parsed value of the text. -/
def parseResponseText (jsonText : Option Json) : Json :=
  jsonText.getD (Json.obj [])

/-- One `generateContent` exchange against an oracle modelling the external
model; the request is appended to the trace of the requests sent so far. -/
def generateContent (oracle : GenRequest → GenerateContentResponse)
    (req : GenRequest) (trace : List GenRequest) :
    GenerateContentResponse × List GenRequest :=
  (oracle req, trace ++ [req])

/-- `screenResumes` (geminiService.ts lines 25–104): build the request,
perform the single `generateContent` exchange, and resolve with
`JSON.parse(response.text || "\x7b\x7d")`.  The second component is the
trace of requests sent to the external model during the invocation. -/
def screenResumes (oracle : GenRequest → GenerateContentResponse)
    (resumes : List ResumeInput) : Json × List GenRequest :=
  let (response, trace) := generateContent oracle (buildRequest resumes) []
  (parseResponseText response.jsonText, trace)

/-! ## The prompt body as the claims describe it -/

/-- The resume-block sequence as described by the claims: for each input in
list order, the header line for its id followed by that input's text, with
consecutive blocks separated by a blank line. -/
def claimBlocks : List ResumeInput → String
  | [] => ""
  | [r] => "--- Resume ID: " ++ r.id ++ " ---\n" ++ r.text
  | r :: rest =>
      ("--- Resume ID: " ++ r.id ++ " ---\n" ++ r.text) ++ "\n\n" ++ claimBlocks rest

theorem claimBlocks_eq_joinSep (l : List ResumeInput) :
    claimBlocks l = joinSep "\n\n" (l.map resumeBlock) := by
  match l with
  | [] => rfl
  | [r] => rfl
  | r :: s :: rest =>
      show _ ++ "\n\n" ++ claimBlocks (s :: rest) = _
      rw [claimBlocks_eq_joinSep (s :: rest)]
      rfl

theorem joinSep_mem_data (sep : String) (l : List String) (x : String)
    (hx : x ∈ l) :
    ∃ a b : List Char, (joinSep sep l).data = a ++ x.data ++ b := by
  match l with
  | [] => cases hx
  | [y] =>
      rcases List.mem_singleton.mp hx with rfl
      exact ⟨[], [], by simp [joinSep]⟩
  | y :: z :: rest =>
      rcases List.mem_cons.mp hx with rfl | htail
      · exact ⟨[], (sep ++ joinSep sep (z :: rest)).data, by
          simp [joinSep, String.data_append]⟩
      · rcases joinSep_mem_data sep (z :: rest) x htail with ⟨a, b, hab⟩
        refine ⟨y.data ++ sep.data ++ a, b, ?_⟩
        show (y ++ sep ++ joinSep sep (z :: rest)).data = _
        simp [String.data_append, hab]

/-! ## Theorems about the screening request -/

/-- C2: the system instruction attached to the screening request is one
fixed string, the same for every resume list, and it contains the four
rubric items with their weights and the fairness constraints forbidding
use of gender, age, ethnicity, nationality, and university prestige. -/
theorem systemInstruction_fixed_and_states_rubric :
    (∀ resumes : List ResumeInput,
        (buildRequest resumes).config.systemInstruction = systemInstruction) ∧
    strOccurs "Technical Skills (40%)" systemInstruction = true ∧
    strOccurs "Practical Experience (30%)" systemInstruction = true ∧
    strOccurs "Analytical Thinking (20%)" systemInstruction = true ∧
    strOccurs "Communication Evidence (10%)" systemInstruction = true ∧
    strOccurs "You must not consider the following attributes" systemInstruction
      = true ∧
    strOccurs "Gender" systemInstruction = true ∧
    strOccurs "Age" systemInstruction = true ∧
    strOccurs "Ethnicity" systemInstruction = true ∧
    strOccurs "Nationality" systemInstruction = true ∧
    strOccurs "University name, college prestige, or ranking" systemInstruction
      = true := by
  refine ⟨fun _ => rfl, ?_⟩
  set_option maxRecDepth 100000 in decide

/-- C1 counterexample: for the response whose text is empty (falsy), the
value `screenResumes` resolves with is the empty JSON object, which has
none of the `evaluations`, `topCandidates`, `fairnessCheck` fields. -/
theorem screenResumes_empty_response_lacks_fields :
    (screenResumes (fun _ => ⟨none⟩) [⟨"1", "SQL and Python projects"⟩]).1
      = Json.obj [] ∧
    Json.hasField
      (screenResumes (fun _ => ⟨none⟩) [⟨"1", "SQL and Python projects"⟩]).1
      "evaluations" = false ∧
    Json.hasField
      (screenResumes (fun _ => ⟨none⟩) [⟨"1", "SQL and Python projects"⟩]).1
      "topCandidates" = false ∧
    Json.hasField
      (screenResumes (fun _ => ⟨none⟩) [⟨"1", "SQL and Python projects"⟩]).1
      "fairnessCheck" = false :=
  ⟨rfl, rfl, rfl, rfl⟩

/-- C1 (amended): `screenResumes` resolves with the unvalidated parse of
the response text: when the response to the built request carries the JSON
value `j`, the resolved value is exactly `j` — so it has the three
Screening Result fields exactly when `j` does — and when the response text
is empty or absent, the resolved value is the empty object, which lacks
all three fields. -/
theorem screenResumes_result_unvalidated (resumes : List ResumeInput)
    (oracle : GenRequest → GenerateContentResponse) :
    (∀ j : Json, (oracle (buildRequest resumes)).jsonText = some j →
        (screenResumes oracle resumes).1 = j) ∧
    ((oracle (buildRequest resumes)).jsonText = none →
        (screenResumes oracle resumes).1 = Json.obj [] ∧
        Json.hasField (screenResumes oracle resumes).1 "evaluations" = false ∧
        Json.hasField (screenResumes oracle resumes).1 "topCandidates" = false ∧
        Json.hasField (screenResumes oracle resumes).1 "fairnessCheck" = false) := by
  constructor
  · intro j hj
    simp [screenResumes, generateContent, parseResponseText, hj]
  · intro hn
    simp [screenResumes, generateContent, parseResponseText, hn, Json.hasField]

/-- Witness for `screenResumes_result_unvalidated` at a concrete oracle. -/
theorem screenResumes_result_unvalidated_witness :
    (screenResumes (fun _ => ⟨some (Json.str "ok")⟩) [⟨"1", "a"⟩]).1
      = Json.str "ok" :=
  (screenResumes_result_unvalidated [⟨"1", "a"⟩]
    (fun _ => ⟨some (Json.str "ok")⟩)).1 (Json.str "ok") rfl

/-- C7: every invocation of `screenResumes` performs exactly one
`generateContent` exchange — the trace of requests is the single built
request — and the resolved value is a function of the response to that
single request alone: any two oracles agreeing on the built request give
the same resolved value. -/
theorem screenResumes_single_exchange (resumes : List ResumeInput)
    (oracle : GenRequest → GenerateContentResponse) :
    (screenResumes oracle resumes).2 = [buildRequest resumes] ∧
    (∀ oracle2 : GenRequest → GenerateContentResponse,
        oracle2 (buildRequest resumes) = oracle (buildRequest resumes) →
        (screenResumes oracle2 resumes).1 = (screenResumes oracle resumes).1) := by
  refine ⟨rfl, fun o2 h => ?_⟩
  simp [screenResumes, generateContent, h]

/-- Witness for `screenResumes_single_exchange` at a concrete input. -/
theorem screenResumes_single_exchange_witness :
    (screenResumes (fun _ => ⟨none⟩) [⟨"1", "a"⟩]).2 = [buildRequest [⟨"1", "a"⟩]] ∧
    (screenResumes (fun _ => ⟨none⟩) [⟨"1", "a"⟩]).1
      = (screenResumes (fun _ => ⟨none⟩) [⟨"1", "a"⟩]).1 :=
  ⟨(screenResumes_single_exchange [⟨"1", "a"⟩] (fun _ => ⟨none⟩)).1,
   (screenResumes_single_exchange [⟨"1", "a"⟩] (fun _ => ⟨none⟩)).2
     (fun _ => ⟨none⟩) rfl⟩

/-- C4: the user prompt contains the resume blocks — for each input in list
order a header line with its id followed by its text, consecutive blocks
separated by a blank line — and every submitted resume's block occurs in
the prompt sent to the API. -/
theorem prompt_contains_all_resumes (resumes : List ResumeInput) :
    (∃ a b : String, prompt resumes = a ++ claimBlocks resumes ++ b) ∧
    (∀ r ∈ resumes, strOccurs (resumeBlock r) (prompt resumes) = true) := by
  constructor
  · exact ⟨"\n    Evaluate the following 20 resumes for a Data Analyst role.\n    \n    Resumes:\n    ",
      "\n\n    Return the results in the specified JSON format.\n  ",
      by rw [claimBlocks_eq_joinSep]; rfl⟩
  · intro r hr
    rcases joinSep_mem_data "\n\n" (resumes.map resumeBlock) (resumeBlock r)
      (List.mem_map_of_mem resumeBlock hr) with ⟨a, b, hab⟩
    refine strOccurs_of_data (resumeBlock r) (prompt resumes)
      ("\n    Evaluate the following 20 resumes for a Data Analyst role.\n    \n    Resumes:\n    ".data ++ a)
      (b ++ "\n\n    Return the results in the specified JSON format.\n  ".data) ?_
    show (_ ++ joinSep "\n\n" (resumes.map resumeBlock) ++ _).data = _
    simp [String.data_append, hab]

/-- Witness for `prompt_contains_all_resumes` at a concrete resume list. -/
theorem prompt_contains_all_resumes_witness :
    strOccurs (resumeBlock ⟨"2", "beta"⟩)
      (prompt [⟨"1", "alpha"⟩, ⟨"2", "beta"⟩]) = true :=
  (prompt_contains_all_resumes [⟨"1", "alpha"⟩, ⟨"2", "beta"⟩]).2
    ⟨"2", "beta"⟩ (by decide)

/-! ## Embedding of the UI component (unnamed source file, `App`)

The declared result types of the service (geminiService.ts lines 5–23),
used by the UI layer.  TypeScript `number` fields are modelled as `Int`;
no claim inspects a numeric value. -/

/-- `ResumeEvaluation.scores` (geminiService.ts lines 7–12). -/
structure Scores where
  technicalSkills : Int
  practicalExperience : Int
  analyticalThinking : Int
  communicationEvidence : Int
deriving DecidableEq, Repr

/-- `interface ResumeEvaluation` (geminiService.ts lines 5–17). -/
structure ResumeEvaluation where
  resumeId : String
  scores : Scores
  totalScore : Int
  strengths : List String
  gaps : List String
  justification : String
deriving DecidableEq, Repr

/-- `interface ScreeningResult` (geminiService.ts lines 19–23). -/
structure ScreeningResult where
  evaluations : List ResumeEvaluation
  topCandidates : List String
  fairnessCheck : String
deriving DecidableEq, Repr

/-- The `useState` hooks of `App` (unnamed file lines 41–51).  The DOM
`fileInputRef` is not state and is not modelled. -/
structure AppState where
  resumes : List ResumeInput
  isScreening : Bool
  isParsingPdf : Option String
  successResumeId : Option String
  result : Option ScreeningResult
  selectedResumeId : Option String
  error : Option String
  activeResumeIdForUpload : Option String
deriving DecidableEq, Repr

/-- The initial resume list: `useState<ResumeInput[]>([{ id: '1', text: '' }])`. -/
def initialResumes : List ResumeInput := [⟨"1", ""⟩]

/-- The initial `App` state: one empty resume, nothing loading, no result,
no error. -/
def initialAppState : AppState :=
  { resumes := initialResumes
    isScreening := false
    isParsingPdf := none
    successResumeId := none
    result := none
    selectedResumeId := none
    error := none
    activeResumeIdForUpload := none }

/-! ### The resume-list operations (unnamed file lines 100–114) -/

/-- The three operations the UI performs on the resume list. -/
inductive ResumeListOp where
  | add : ResumeListOp
  | remove (id : String) : ResumeListOp
  | update (id : String) (text : String) : ResumeListOp

/-- `handleAddResume`, `handleRemoveResume`, `handleUpdateResume` as
transformations of the resume list:
* add appends `{ id: String(resumes.length + 1), text: '' }` when the list
  has fewer than 20 entries, else does nothing;
* remove keeps the entries whose id differs from the given one when the
  list has more than one entry, else does nothing;
* update replaces the text of every entry with the given id. -/
def applyResumeListOp (l : List ResumeInput) : ResumeListOp → List ResumeInput
  | .add =>
      if l.length < 20 then l ++ [⟨toString (l.length + 1), ""⟩] else l
  | .remove id =>
      if l.length > 1 then l.filter (fun r => r.id != id) else l
  | .update id text =>
      l.map (fun r => if r.id == id then { r with text := text } else r)

/-- The resume list reached from the initial state by a sequence of
resume-list operations. -/
def runResumeListOps (ops : List ResumeListOp) : List ResumeInput :=
  ops.foldl applyResumeListOp initialResumes

/-! ### `handleScreening` (unnamed file lines 116–137) -/

/-- JS `String.prototype.trim`: the string with leading and trailing
whitespace removed (whitespace per `Char.isWhitespace`). -/
def jsTrim (s : String) : String :=
  ⟨((s.data.dropWhile Char.isWhitespace).reverse.dropWhile
      Char.isWhitespace).reverse⟩

/-- The error message of the catch block of `handleScreening`. -/
def screeningFailedMsg : String :=
  "Screening failed. Please check your API key and try again."

/-- `handleScreening`.  The `screenResumes` promise is modelled by `api`:
its rejection is `.error`, its resolution `.ok`.  The second component of
the value is the argument passed to `screenResumes`, or `none` when no
call was made. -/
def handleScreening (s : AppState)
    (api : List ResumeInput → Except Unit ScreeningResult) :
    AppState × Option (List ResumeInput) :=
  let validResumes := s.resumes.filter (fun r => 0 < (jsTrim r.text).length)
  if validResumes.length = 0 then
    ({ s with error := some "Please add at least one resume text." }, none)
  else
    let s1 := { s with isScreening := true, error := none }
    match api validResumes with
    | .ok screeningResult =>
        let s2 := { s1 with result := some screeningResult }
        let s3 :=
          if 0 < screeningResult.topCandidates.length then
            { s2 with selectedResumeId := screeningResult.topCandidates.head? }
          else s2
        ({ s3 with isScreening := false }, some validResumes)
    | .error _ =>
        ({ s1 with error := some screeningFailedMsg, isScreening := false },
          some validResumes)

/-! ### PDF extraction and upload (unnamed file lines 53–93) -/

/-- A page of a parsed PDF: `getTextContent().items`, each item modelled by
its `str` field, the only field the source reads. -/
structure PdfPage where
  items : List String

/-- A parsed PDF document as used by the source: `numPages` and `getPage`,
the latter for the 1-based page numbers `1, ..., numPages`. -/
structure PdfDocument where
  numPages : Nat
  getPage : Nat → PdfPage

/-- `extractTextFromPdf` (unnamed file lines 53–66): for pages `1` to
`numPages`, the page's item strings joined by single spaces are appended to
the accumulated text, followed by a newline. -/
def extractTextFromPdf (pdf : PdfDocument) : String :=
  (List.range' 1 pdf.numPages).foldl
    (fun fullText i => fullText ++ (joinSep " " (pdf.getPage i).items ++ "\n"))
    ""

/-- An uploaded file as consumed by `handleFileUpload`: its MIME type and
its content, an opaque payload handed to the parser. -/
structure UploadFile where
  fileType : String
  content : List (List String)

/-- `handleFileUpload` (unnamed file lines 68–93).  `file` is
`event.target.files?.[0]`; the third-party parse-and-extract step
(`extractTextFromPdf` applied to the `getDocument` result) is modelled by
`parsePdf`, whose `.error` is the promise rejection handled by the catch
block.  The `setTimeout` that clears `successResumeId` three seconds later
is outside the handler and not modelled. -/
def handleFileUpload (s : AppState) (file : Option UploadFile)
    (parsePdf : UploadFile → Except Unit String) : AppState :=
  match file, s.activeResumeIdForUpload with
  | none, _ => s
  | some _, none => s
  | some f, some activeId =>
      if f.fileType ≠ "application/pdf" then
        { s with error := some "Please upload a PDF file." }
      else
        let s1 := { s with isParsingPdf := some activeId, error := none }
        let s2 :=
          match parsePdf f with
          | .ok text =>
              { s1 with
                resumes := s1.resumes.map (fun r : ResumeInput =>
                  if r.id == activeId then { r with text := text } else r)
                successResumeId := some activeId }
          | .error _ =>
              { s1 with
                error := some "Failed to parse PDF. Please try pasting the text manually." }
        { s2 with isParsingPdf := none, activeResumeIdForUpload := none }

/-! ## Theorems about the resume list -/

theorem applyResumeListOp_length_le (l : List ResumeInput) (op : ResumeListOp)
    (h : l.length ≤ 20) : (applyResumeListOp l op).length ≤ 20 := by
  cases op with
  | add =>
      by_cases h20 : l.length < 20
      · simp only [applyResumeListOp, if_pos h20, List.length_append,
          List.length_singleton]
        omega
      · simpa [applyResumeListOp, h20] using h
  | remove id =>
      by_cases h1 : l.length > 1
      · simp only [applyResumeListOp, if_pos h1]
        exact le_trans (List.length_filter_le _ _) h
      · simpa [applyResumeListOp, h1] using h
  | update id text => simpa [applyResumeListOp] using h

theorem foldl_applyResumeListOp_length_le (ops : List ResumeListOp) :
    ∀ l : List ResumeInput, l.length ≤ 20 →
      (ops.foldl applyResumeListOp l).length ≤ 20 := by
  induction ops with
  | nil => exact fun l h => h
  | cons op rest ih =>
      exact fun l h => ih _ (applyResumeListOp_length_le l op h)

/-- C3 (amended): every resume list reachable from the initial state has at
most 20 entries, `handleAddResume` leaves a 20-entry list unchanged, and
`handleRemoveResume` leaves a single-entry list unchanged.  (The claimed
lower bound of one entry is not invariant: removal filters by id, and with
duplicated ids one removal deletes several entries — see the
counterexample.) -/
theorem resumeList_bounds (ops : List ResumeListOp) :
    (runResumeListOps ops).length ≤ 20 ∧
    (∀ l : List ResumeInput, l.length = 20 →
        applyResumeListOp l ResumeListOp.add = l) ∧
    (∀ (l : List ResumeInput) (id : String), l.length = 1 →
        applyResumeListOp l (ResumeListOp.remove id) = l) := by
  refine ⟨foldl_applyResumeListOp_length_le ops initialResumes (by decide),
    fun l h20 => ?_, fun l id h1 => ?_⟩
  · simp [applyResumeListOp, h20]
  · simp [applyResumeListOp, h1]

/-- Witness for `resumeList_bounds` at concrete lists. -/
theorem resumeList_bounds_witness :
    (runResumeListOps [ResumeListOp.add]).length ≤ 20 ∧
    applyResumeListOp (List.replicate 20 ⟨"1", ""⟩) ResumeListOp.add
      = List.replicate 20 ⟨"1", ""⟩ ∧
    applyResumeListOp [⟨"1", ""⟩] (ResumeListOp.remove "1") = [⟨"1", ""⟩] :=
  ⟨(resumeList_bounds [ResumeListOp.add]).1,
   (resumeList_bounds []).2.1 (List.replicate 20 ⟨"1", ""⟩) (by decide),
   (resumeList_bounds []).2.2 [⟨"1", ""⟩] "1" (by decide)⟩

/-- C3 counterexample: starting from the initial single-resume state, the
operation sequence add, remove "1", add, remove "2" empties the resume
list — the second add creates a duplicate of the existing id "2", and the
final removal deletes both entries — so the list does not always keep at
least one entry. -/
theorem resumeList_can_become_empty :
    runResumeListOps [ResumeListOp.add, ResumeListOp.remove "1",
      ResumeListOp.add, ResumeListOp.remove "2"] = [] := by decide

/-- C10: resume ids are not kept unique: after add, remove "1", add from
the initial state, the list has exactly two entries and both carry the id
"2" — the second add assigned `String(resumes.length + 1) = "2"` while an
entry with id "2" already existed after the removal. -/
theorem resumeIds_can_collide :
    (runResumeListOps [ResumeListOp.add, ResumeListOp.remove "1",
      ResumeListOp.add]).map ResumeInput.id = ["2", "2"] := by decide

/-! ## Theorems about `handleScreening` -/

/-- C5: if the `screenResumes` call made by `handleScreening` rejects, the
handler sets the error state to the screening-failed message, leaves the
result and resumes states unchanged, and `isScreening` is false after the
handler completes. -/
theorem handleScreening_rejection (s : AppState)
    (api : List ResumeInput → Except Unit ScreeningResult)
    (hvalid : (s.resumes.filter (fun r => 0 < (jsTrim r.text).length)).length ≠ 0)
    (hrej : api (s.resumes.filter (fun r => 0 < (jsTrim r.text).length))
      = Except.error ()) :
    (handleScreening s api).1.error = some screeningFailedMsg ∧
    (handleScreening s api).1.result = s.result ∧
    (handleScreening s api).1.resumes = s.resumes ∧
    (handleScreening s api).1.isScreening = false := by
  simp [handleScreening, hvalid, hrej]

/-- Witness for `handleScreening_rejection` at a concrete state. -/
theorem handleScreening_rejection_witness :
    (handleScreening { initialAppState with resumes := [⟨"1", "sql"⟩] }
        (fun _ => Except.error ())).1.error = some screeningFailedMsg ∧
    (handleScreening { initialAppState with resumes := [⟨"1", "sql"⟩] }
        (fun _ => Except.error ())).1.result
      = ({ initialAppState with resumes := [⟨"1", "sql"⟩] } : AppState).result ∧
    (handleScreening { initialAppState with resumes := [⟨"1", "sql"⟩] }
        (fun _ => Except.error ())).1.resumes
      = ({ initialAppState with resumes := [⟨"1", "sql"⟩] } : AppState).resumes ∧
    (handleScreening { initialAppState with resumes := [⟨"1", "sql"⟩] }
        (fun _ => Except.error ())).1.isScreening = false :=
  handleScreening_rejection { initialAppState with resumes := [⟨"1", "sql"⟩] }
    (fun _ => Except.error ()) (by decide) rfl

/-- C8: `handleScreening` passes to `screenResumes` exactly the resumes
whose text is non-blank after trimming; when every resume's text is blank,
no call is made, the error state is set to the add-a-resume message, and
the result and resumes states are unchanged. -/
theorem handleScreening_blank_handling (s : AppState)
    (api : List ResumeInput → Except Unit ScreeningResult) :
    (∀ passed : List ResumeInput, (handleScreening s api).2 = some passed →
        passed = s.resumes.filter (fun r => 0 < (jsTrim r.text).length) ∧
        ∀ r ∈ passed, 0 < (jsTrim r.text).length) ∧
    ((∀ r ∈ s.resumes, (jsTrim r.text).length = 0) →
        (handleScreening s api).2 = none ∧
        (handleScreening s api).1.error
          = some "Please add at least one resume text." ∧
        (handleScreening s api).1.result = s.result ∧
        (handleScreening s api).1.resumes = s.resumes) := by
  constructor
  · intro passed hp
    by_cases h0 : (s.resumes.filter (fun r => 0 < (jsTrim r.text).length)).length = 0
    · simp [handleScreening, h0] at hp
    · have hpassed : passed
          = s.resumes.filter (fun r => 0 < (jsTrim r.text).length) := by
        cases hapi : api (s.resumes.filter (fun r => 0 < (jsTrim r.text).length)) with
        | ok res => simp [handleScreening, h0, hapi] at hp; exact hp.symm
        | error e => simp [handleScreening, h0, hapi] at hp; exact hp.symm
      refine ⟨hpassed, fun r hr => ?_⟩
      rw [hpassed] at hr
      exact of_decide_eq_true (List.mem_filter.mp hr).2
  · intro hblank
    have h0 : s.resumes.filter (fun r => 0 < (jsTrim r.text).length) = [] :=
      List.filter_eq_nil_iff.mpr (fun r hr => by
        simp [hblank r hr])
    simp [handleScreening, h0]

/-- Witness for `handleScreening_blank_handling` at a concrete state. -/
theorem handleScreening_blank_handling_witness :
    ((handleScreening { initialAppState with resumes := [⟨"1", "  "⟩] }
        (fun _ => Except.error ())).2 = none ∧
      (handleScreening { initialAppState with resumes := [⟨"1", "  "⟩] }
        (fun _ => Except.error ())).1.error
        = some "Please add at least one resume text." ∧
      (handleScreening { initialAppState with resumes := [⟨"1", "  "⟩] }
        (fun _ => Except.error ())).1.result
        = ({ initialAppState with resumes := [⟨"1", "  "⟩] } : AppState).result ∧
      (handleScreening { initialAppState with resumes := [⟨"1", "  "⟩] }
        (fun _ => Except.error ())).1.resumes
        = ({ initialAppState with resumes := [⟨"1", "  "⟩] } : AppState).resumes) :=
  (handleScreening_blank_handling
      { initialAppState with resumes := [⟨"1", "  "⟩] }
      (fun _ => Except.error ())).2 (by decide)

/-! ## Theorems about PDF extraction and upload -/

/-- The document text as the claim describes it: the concatenation, in
increasing page order over pages `1, ..., n`, of each page's text-item
strings joined by single spaces, with a newline appended after each
page's text. -/
def claimPdfText (pdf : PdfDocument) : Nat → String
  | 0 => ""
  | n + 1 =>
      claimPdfText pdf n ++ (joinSep " " (pdf.getPage (n + 1)).items ++ "\n")

theorem extract_foldl_eq_claimPdfText (pdf : PdfDocument) (n : Nat) :
    (List.range' 1 n).foldl
      (fun fullText i => fullText ++ (joinSep " " (pdf.getPage i).items ++ "\n"))
      ""
      = claimPdfText pdf n := by
  induction n with
  | zero => rfl
  | succ m ih =>
      have h1m : 1 + m = m + 1 := Nat.add_comm 1 m
      rw [List.range'_concat, List.foldl_append, ih]
      simp [List.foldl, claimPdfText, h1m]

/-- C6: for every PDF document, `extractTextFromPdf` returns the
concatenation, in increasing page order, of each page's text-item strings
joined by single spaces, with a newline appended after each page's text. -/
theorem extractTextFromPdf_eq_claim (pdf : PdfDocument) :
    extractTextFromPdf pdf = claimPdfText pdf pdf.numPages :=
  extract_foldl_eq_claimPdfText pdf pdf.numPages

/-- C9 counterexample: with no resume active for upload
(`activeResumeIdForUpload` null, as in the initial state), a selected
non-PDF file makes `handleFileUpload` return with the state unchanged: the
error state is not set to the upload-a-PDF message. -/
theorem handleFileUpload_no_active_unchanged :
    handleFileUpload initialAppState (some ⟨"text/plain", []⟩)
        (fun _ => Except.error ())
      = initialAppState ∧
    (handleFileUpload initialAppState (some ⟨"text/plain", []⟩)
        (fun _ => Except.error ())).error = none :=
  ⟨rfl, rfl⟩

/-- C9 (amended): when a resume is active for upload and `handleFileUpload`
receives a selected file whose type is not `application/pdf`, it sets the
error state to the upload-a-PDF message and returns with every other part
of the state unchanged, for every parser — so the file is not parsed and
no resume's text is modified. -/
theorem handleFileUpload_rejects_nonPdf (s : AppState) (f : UploadFile)
    (parsePdf : UploadFile → Except Unit String) (aid : String)
    (hactive : s.activeResumeIdForUpload = some aid)
    (htype : f.fileType ≠ "application/pdf") :
    handleFileUpload s (some f) parsePdf
      = { s with error := some "Please upload a PDF file." } := by
  simp [handleFileUpload, hactive, htype]

/-- Witness for `handleFileUpload_rejects_nonPdf` at a concrete state. -/
theorem handleFileUpload_rejects_nonPdf_witness :
    handleFileUpload
        { initialAppState with activeResumeIdForUpload := some "1" }
        (some ⟨"text/plain", []⟩) (fun _ => Except.ok "x")
      = { { initialAppState with activeResumeIdForUpload := some "1" } with
          error := some "Please upload a PDF file." } :=
  handleFileUpload_rejects_nonPdf
    { initialAppState with activeResumeIdForUpload := some "1" }
    ⟨"text/plain", []⟩ (fun _ => Except.ok "x") "1" rfl (by decide)
